import Mathlib

/-
Verification of the p2 node-level pod preparer against its specification.

The definitions below are a shallow embedding of the Go sources:
  * pkg/pods/pod.go           (WriteCurrentManifest, revertCurrentManifest,
                               Launch, Install, Launchables, getLaunchable)
  * pkg/preparer (orchestrate) (WatchForPodManifestsForNode, handlePods,
                               installAndLaunchPod)
  * pkg/watch                 (StatusChecker health classification)
  * pkg/roll store            (Put, Watch over the rolls tree)
  * pkg/labels                (httpApplicator.GetMatches)

External effects (filesystem, Consul KV, HTTP) are modelled by explicit
state values and error-injection environments, following the control flow
of the source functions step by step.
-/

/-! ## Manifest model

The pod manifest (pkg/pods manifest type; the concrete type is not among
the provided sources, only its use sites are). A manifest carries a pod id
and an opaque body standing for the remaining manifest content (launchable
stanzas, config blobs). Its fingerprint (SHA) is a content hash of the
canonical serialization; fingerprints are equal exactly when the
serializations are, which is how every caller in the source treats them. -/

structure Manifest where
  id : String
  config : String
deriving DecidableEq, Repr

/-- Canonical serialization of a manifest, standing for the YAML rendering
written to current_manifest.yaml. -/
def serializeManifest (m : Manifest) : String :=
  "id: " ++ m.id ++ "\nconfig: " ++ m.config ++ "\n"

/-- Split a character list at every occurrence of the separator. -/
def splitOnChar (c : Char) : List Char → List (List Char)
  | [] => [[]]
  | a :: rest =>
    match splitOnChar c rest with
    | [] => if a = c then [[], []] else [[a]]
    | h :: t => if a = c then [] :: h :: t else (a :: h) :: t

/-- Strip an expected prefix from a character list, or fail. -/
def dropPrefixChars : List Char → List Char → Option (List Char)
  | [], l => some l
  | _ :: _, [] => none
  | p :: ps, b :: bs => if b = p then dropPrefixChars ps bs else none

/-- Parse the serialized form of a manifest back into a manifest; returns
none on anything that is not a complete serialized manifest (in particular
on the empty file observable mid-write). -/
def parseManifest (s : String) : Option Manifest :=
  match splitOnChar (Char.ofNat 10) s.data with
  | [l1, l2, []] =>
    match dropPrefixChars ("id: ".data) l1, dropPrefixChars ("config: ".data) l2 with
    | some idChars, some cfgChars => some { id := String.mk idChars, config := String.mk cfgChars }
    | _, _ => none
  | _ => none

/-- The manifest fingerprint: content hash over the canonical
serialization. Equality of fingerprints coincides with equality of
serializations, which is the only property any caller relies on. -/
def manifestSHA (m : Manifest) : String :=
  serializeManifest m

/-- The zero value PodManifest literal from Go. -/
def emptyPodManifest : Manifest :=
  { id := "", config := "" }

/-! ## Pod.WriteCurrentManifest (pkg/pods/pod.go, lines 261 to 318)

The filesystem state relevant to the claims is the content of
current_manifest.yaml, modelled as an Option String (none when absent).
The environment injects a failure at each fallible step of the source:
creating the temp dir, copying the old file aside (uri.URICopy), opening
the target with O_WRONLY, O_CREATE and O_TRUNC, writing the manifest,
resolving the uid and gid, chowning the open file, and the os.Rename
inside revertCurrentManifest when a revert is attempted. -/

structure WcmEnv where
  tempDirFails : Bool
  uriCopyFails : Bool
  openFails : Bool
  writeFails : Bool
  userIDsFails : Bool
  chownFails : Bool
  revertFails : Bool
deriving DecidableEq, Repr

/-- The outcome of WriteCurrentManifest: the successive observable
contents of current_manifest.yaml (the trace starts at the prior content
and records every state change made by the function), the content at
return, and whether an error was returned. -/
structure WcmResult where
  trace : List (Option String)
  final : Option String
  errored : Bool
deriving DecidableEq, Repr

/-- Shallow embedding of Pod.WriteCurrentManifest together with
revertCurrentManifest. The source stages the OLD manifest to a temp copy,
then opens current_manifest.yaml with O_TRUNC (truncating it in place) and
writes the new manifest into it directly. On open or write failure it
calls revertCurrentManifest and OVERWRITES err with its result before
returning: when a staged copy exists and the rename back succeeds, the
returned error is nil (the original failure is swallowed); when the rename
fails, or no staged copy exists (its Stat fails), that error is returned
and after a write failure the truncated file is left in place. On uid or
gid resolution failure and on chown failure it returns the error without
reverting (the source comments: the write was still successful so we are
not going to revert). -/
def writeCurrentManifest (env : WcmEnv) (old : Option String) (newM : Manifest) : WcmResult :=
  if env.tempDirFails then
    { trace := [old], final := old, errored := true }
  else
    -- stage the old manifest to a temp copy; the source only copies when
    -- Stat on the current path succeeds
    let staged : Option String := old
    let copyFailed := old.isSome && env.uriCopyFails
    if copyFailed then
      { trace := [old], final := old, errored := true }
    else if env.openFails then
      -- the file was not opened, hence not truncated; err is replaced by
      -- the revert result: the rename of the staged copy (same content
      -- whether it succeeds or fails), or the failing Stat without one
      match staged with
      | some _ => { trace := [old], final := old, errored := env.revertFails }
      | none => { trace := [old], final := old, errored := true }
    else
      -- O_TRUNC: the file now exists and is empty
      if env.writeFails then
        -- err is replaced by the revert result: a successful rename
        -- restores the old content and returns nil, swallowing the write
        -- failure; a failed rename, or a missing staged copy, leaves the
        -- truncated file in place and returns that error
        match staged with
        | some o =>
          if env.revertFails then
            { trace := [old, some ""], final := some "", errored := true }
          else
            { trace := [old, some "", some o], final := some o, errored := false }
        | none => { trace := [old, some ""], final := some "", errored := true }
      else
        let written := some (serializeManifest newM)
        if env.userIDsFails then
          -- the write was successful so the source does not revert
          { trace := [old, some "", written], final := written, errored := true }
        else if env.chownFails then
          -- likewise no revert on chown failure
          { trace := [old, some "", written], final := written, errored := true }
        else
          { trace := [old, some "", written], final := written, errored := false }

/-- An environment in which nothing fails. -/
def wcmNoFail : WcmEnv :=
  { tempDirFails := false, uriCopyFails := false, openFails := false
    writeFails := false, userIDsFails := false, chownFails := false
    revertFails := false }

/-! ## installAndLaunchPod (pkg/preparer orchestrate, lines 105 to 142)

The worker step that applies one new manifest to a pod. The pod it drives
is abstracted by the outcome of each interface call: Install, then
CurrentManifest (which may yield a manifest, a does-not-exist error, or
another error), then either Launch or Halt. The action list records which
lifecycle operations the step invoked, in order. -/

inductive PodAction where
  | install
  | launch
  | halt
deriving DecidableEq, Repr

inductive CurrentResult where
  | manifest (m : Manifest)
  | errNotExist
  | errOther
deriving DecidableEq, Repr

structure WorkerEnv where
  installFails : Bool
  current : CurrentResult
  launchOk : Bool
  launchErr : Bool
  haltOk : Bool
  haltErr : Bool
deriving DecidableEq, Repr

/-- Shallow embedding of installAndLaunchPod: Install, read the current
manifest, compare fingerprints, and act. The returned Bool is the ok value
of the source (false means the worker will retry after a backoff). -/
def installAndLaunchPod (env : WorkerEnv) (newManifest : Manifest) : Bool × List PodAction :=
  if env.installFails then
    (false, [PodAction.install])
  else
    match env.current with
    | CurrentResult.errNotExist =>
      if env.launchErr || !env.launchOk then
        (false, [PodAction.install, PodAction.launch])
      else
        (true, [PodAction.install, PodAction.launch])
    | CurrentResult.errOther =>
      (false, [PodAction.install])
    | CurrentResult.manifest cur =>
      if manifestSHA cur ≠ manifestSHA newManifest then
        if env.haltErr || !env.haltOk then
          (false, [PodAction.install, PodAction.halt])
        else
          -- the source returns true here without ever invoking Launch
          (true, [PodAction.install, PodAction.halt])
      else
        (true, [PodAction.install])

/-! ## handlePods after-hook step (pkg/preparer orchestrate, lines 70 to 103)

After a successful installAndLaunchPod the worker resets manifestToLaunch
to the zero PodManifest and only then runs the after hooks with that
variable; a hook error is printed and does not change the worker state. -/

/-- The manifest handed to the hooksDir/after scripts, and whether the
worker treats the iteration as failed, after a successful application of
manifestToLaunch. -/
def handlePodsAfterSuccess (manifestToLaunch : Manifest) (hookFails : Bool) : Manifest × Bool :=
  -- the source zeroes manifestToLaunch and clears the working flag first
  let manifestToLaunch := emptyPodManifest
  -- pods.RunHooks(path.Join(hooksDirectory, "after"), manifestToLaunch);
  -- a hook error is only printed
  let workerFailed := false
  (manifestToLaunch, workerFailed)

/-! ## getLaunchable, Launchables and Install (pkg/pods/pod.go, lines 368
to 404 and 559 to 624)

A launchable stanza carries an id, a type tag, an artifact location and a
restart timeout. getLaunchable dispatches on the type tag: hoist always
constructs a hoist launchable; opencontainer constructs one only when the
process-wide ExperimentalOpencontainer flag is set; every remaining case
is the unsupported-launchable-type error. An invalid restartTimeout value
is only logged and replaced by the default, never an error. -/

structure LaunchableStanza where
  launchableId : String
  launchableType : String
  location : String
  restartTimeout : String
deriving DecidableEq, Repr

inductive Launchable where
  | hoist (id location runAs : String)
  | opencontainer (id location runAs : String)
deriving DecidableEq, Repr

inductive PodError where
  | unsupportedLaunchableType (t : String)
  | userIDsError
  | mkdirError
  | launchableInstallError (idx : Nat)
  | setupConfigError
  | writeManifestError
  | makeCurrentError (idx : Nat)
deriving DecidableEq, Repr

/-- Shallow embedding of Pod.getLaunchable. The launchable id is the pod
id joined with the stanza id by a double underscore, as in the source. -/
def getLaunchable (ocFlag : Bool) (podId : String) (st : LaunchableStanza)
    (runAs : String) : Except PodError Launchable :=
  let launchableId := podId ++ "__" ++ st.launchableId
  if st.launchableType = "hoist" then
    Except.ok (Launchable.hoist launchableId st.location runAs)
  else if ocFlag = true ∧ st.launchableType = "opencontainer" then
    Except.ok (Launchable.opencontainer launchableId st.location runAs)
  else
    Except.error (PodError.unsupportedLaunchableType st.launchableType)

/-- Shallow embedding of Pod.Launchables: construct every stanza in order,
failing on the first stanza whose construction fails. -/
def podLaunchables (ocFlag : Bool) (podId runAs : String) :
    List LaunchableStanza → Except PodError (List Launchable)
  | [] => Except.ok []
  | st :: rest =>
    match getLaunchable ocFlag podId st runAs with
    | Except.error e => Except.error e
    | Except.ok l =>
      match podLaunchables ocFlag podId runAs rest with
      | Except.error e => Except.error e
      | Except.ok ls => Except.ok (l :: ls)

/-- Error injection for the filesystem steps of Pod.Install. -/
structure InstallEnv where
  userIDsFail : Bool
  mkdirFail : Bool
  launchableInstallFail : Nat → Bool
  setupConfigFail : Bool

/-- Shallow embedding of Pod.Install: resolve uid and gid, create the pod
home, construct the launchables, run each launchable Install (first
failure aborts), then set up the config and env directories. Returns none
on success and the first error otherwise. -/
def podInstall (env : InstallEnv) (ocFlag : Bool) (podId runAs : String)
    (stanzas : List LaunchableStanza) : Option PodError :=
  if env.userIDsFail then some PodError.userIDsError
  else if env.mkdirFail then some PodError.mkdirError
  else
    match podLaunchables ocFlag podId runAs stanzas with
    | Except.error e => some e
    | Except.ok ls =>
      match (List.range ls.length).find? env.launchableInstallFail with
      | some i => some (PodError.launchableInstallError i)
      | none => if env.setupConfigFail then some PodError.setupConfigError else none

/-! ## Pod.Launch (pkg/pods/pod.go, lines 132 to 195)

Launch constructs the launchables, writes the current manifest, flips each
launchable current symlink (MakeCurrent; a failure is catastrophic and
returns immediately), runs PostActivate per launchable (a failure only
marks that launchable as not-to-start), builds the runit services (the
source assigns this error to err and never checks it), and finally starts
each launchable whose PostActivate succeeded: an EnableError is only a
warning, any other error (including StartError) clears success. -/

inductive LaunchCallResult where
  | ok
  | enableErr
  /-- any error other than EnableError, intentionally including
  StartError: the default case of the switch in the source -/
  | startErr
deriving DecidableEq, Repr

structure LaunchRuntime where
  makeCurrentFails : Nat → Bool
  postActivateFails : Nat → Bool
  /-- the source computes this error and drops it -/
  buildRunitFails : Bool
  svcLaunch : Nat → LaunchCallResult

/-- The first loop of Pod.Launch over launchable indices: MakeCurrent then
PostActivate, recording per-launchable PostActivate success; the first
MakeCurrent failure returns it as the error of the whole Launch. -/
def launchFlip (rt : LaunchRuntime) : List Nat → Except PodError (List Bool)
  | [] => Except.ok []
  | i :: rest =>
    if rt.makeCurrentFails i then Except.error (PodError.makeCurrentError i)
    else
      match launchFlip rt rest with
      | Except.error e => Except.error e
      | Except.ok bs => Except.ok ((!rt.postActivateFails i) :: bs)

/-- One iteration of the second loop of Pod.Launch: launchables whose
PostActivate failed are skipped; an EnableError leaves success untouched;
any other error clears it. -/
def launchStep (rt : LaunchRuntime) (successes : List Bool) (acc : Bool) (i : Nat) : Bool :=
  if successes.getD i false = false then acc
  else
    match rt.svcLaunch i with
    | LaunchCallResult.ok => acc
    | LaunchCallResult.enableErr => acc
    | LaunchCallResult.startErr => false

/-- Shallow embedding of Pod.Launch. Returns the (success, error) pair of
the source. -/
def podLaunch (ocFlag : Bool) (podId runAs : String) (stanzas : List LaunchableStanza)
    (wcmEnv : WcmEnv) (old : Option String) (m : Manifest) (rt : LaunchRuntime) :
    Bool × Option PodError :=
  match podLaunchables ocFlag podId runAs stanzas with
  | Except.error e => (false, some e)
  | Except.ok ls =>
    if (writeCurrentManifest wcmEnv old m).errored then
      (false, some PodError.writeManifestError)
    else
      match launchFlip rt (List.range ls.length) with
      | Except.error e => (false, some e)
      | Except.ok successes =>
        -- err = pod.buildRunitServices(...): the source never checks it
        let success := List.foldl (launchStep rt successes) true (List.range ls.length)
        (success, none)

/-- Whether launchable i makes the second Launch loop clear success: its
PostActivate succeeded and its service start failed with a non-enable
error. -/
def svcStartFailed (rt : LaunchRuntime) (successes : List Bool) (i : Nat) : Bool :=
  successes.getD i false && decide (rt.svcLaunch i = LaunchCallResult.startErr)

/-! ## Health classification (pkg/watch)

The health states of pkg/health. -/

inductive HealthState where
  | passing
  | warning
  | critical
  | unknown
deriving DecidableEq, Repr

/-- An HTTP response from the status endpoint: status code and body. -/
structure StatusResponse where
  statusCode : Nat
  body : String
deriving DecidableEq, Repr

/-- Modelled from the spec: StatusChecker.resultFromCheck is not among the
provided sources — only its test TestResultFromCheck is. Per the spec
(section 4.5), the HTTPS probe of the status endpoint classifies a 2xx
response as Passing, a 429 response as Warning, and any other response or
transport error as Critical; a transport error is checked first and a
missing response is also Critical, as the test requires. The Output field
captures the response body. -/
def resultFromCheck (resp : Option StatusResponse) (errOccurred : Bool) :
    HealthState × String :=
  if errOccurred then
    (HealthState.critical, "")
  else
    match resp with
    | none => (HealthState.critical, "")
    | some r =>
      if 200 ≤ r.statusCode ∧ r.statusCode ≤ 299 then (HealthState.passing, r.body)
      else if r.statusCode = 429 then (HealthState.warning, r.body)
      else (HealthState.critical, r.body)

/-! ## Consul KV model and the roll store (pkg/roll store)

The KV store is a list of entries with monotone positive ModifyIndex
values, per the KV contract of the spec (section 3): CAS succeeds exactly
when the expected index equals the current one, with index 0 meaning the
key must not exist. -/

structure KVEntry where
  key : String
  value : String
  modifyIndex : Nat
deriving DecidableEq, Repr

/-- Look a key up in the store. -/
def kvLookup (kv : List KVEntry) (k : String) : Option KVEntry :=
  kv.find? fun e => e.key = k

/-- The largest ModifyIndex present; fresh writes get a larger one. -/
def kvMaxIndex (kv : List KVEntry) : Nat :=
  kv.foldr (fun e acc => max e.modifyIndex acc) 0

/-- The Consul compare-and-swap: on an absent key it succeeds only with
expected index 0 and creates the entry; on a present key it succeeds only
when the expected index equals the current ModifyIndex. A failed CAS
leaves the store unchanged. -/
def kvCAS (kv : List KVEntry) (k v : String) (expectedIndex : Nat) :
    Bool × List KVEntry :=
  match kvLookup kv k with
  | none =>
    if expectedIndex = 0 then
      (true, { key := k, value := v, modifyIndex := kvMaxIndex kv + 1 } :: kv)
    else (false, kv)
  | some e =>
    if expectedIndex = e.modifyIndex then
      (true, kv.map fun e2 =>
        if e2.key = k then { key := k, value := v, modifyIndex := kvMaxIndex kv + 1 } else e2)
    else (false, kv)

/-- Every live entry has a positive ModifyIndex (index 0 never names an
existing revision). -/
def kvWF (kv : List KVEntry) : Prop :=
  ∀ e ∈ kv, 1 ≤ e.modifyIndex

/-- An Update record: immutable roll plan keyed by the new RC id. -/
structure RollUpdate where
  newRC : String
  oldRC : String
  desiredReplicas : Nat
  minimumReplicas : Nat
deriving DecidableEq, Repr

/-- The rolls subtree path for an update, keyed by new RC id (kp.RollPath
per the KV layout of the spec, section 6). -/
def rollPath (id : String) : String :=
  "rolls/" ++ id

/-- JSON marshalling of an Update, modelled as a canonical line-oriented
rendering. -/
def marshalUpdate (u : RollUpdate) : String :=
  "newRC: " ++ u.newRC ++ "\noldRC: " ++ u.oldRC ++ "\ndesired: " ++
    Nat.repr u.desiredReplicas ++ "\nminimum: " ++ Nat.repr u.minimumReplicas ++ "\n"

/-- Read a natural number from its decimal digits. -/
def charsToNat : List Char → Option Nat
  | [] => none
  | cs =>
    cs.foldl
      (fun acc c =>
        match acc with
        | none => none
        | some n =>
          if 48 ≤ c.toNat ∧ c.toNat ≤ 57 then some (n * 10 + (c.toNat - 48)) else none)
      (some 0)

/-- Unmarshal an Update; none models a json.Unmarshal failure. -/
def parseUpdate (s : String) : Option RollUpdate :=
  match splitOnChar (Char.ofNat 10) s.data with
  | [l1, l2, l3, l4, []] =>
    match dropPrefixChars ("newRC: ".data) l1, dropPrefixChars ("oldRC: ".data) l2,
        dropPrefixChars ("desired: ".data) l3, dropPrefixChars ("minimum: ".data) l4 with
    | some nc, some oc, some dc, some mc =>
      match charsToNat dc, charsToNat mc with
      | some d, some mn =>
        some { newRC := String.mk nc, oldRC := String.mk oc,
               desiredReplicas := d, minimumReplicas := mn }
      | _, _ => none
    | _, _, _, _ => none
  | _ => none

/-- Shallow embedding of the roll store Put: marshal the update and CAS it
at the rolls path of its new RC id with ModifyIndex 0 (it must not already
exist); a failed CAS is the already-exists error. Returns the error (if
any) and the resulting store. -/
def rollStorePut (kv : List KVEntry) (u : RollUpdate) : Option String × List KVEntry :=
  let b := marshalUpdate u
  let key := rollPath u.newRC
  let r := kvCAS kv key b 0
  if r.fst then (none, r.snd)
  else (some ("update with new RC ID " ++ u.newRC ++ " already exists"), r.snd)

/-! ## Roll store Watch (pkg/roll store)

The watch goroutine loops: each iteration either receives the quit signal
and returns, or ticks, lists the whole rolls tree, and processes the
result. A list error goes to the error channel and the loop continues; a
listing is unmarshalled entry by entry, each failure going to the error
channel and each success into the batch sent on the output channel. The
run is modelled over the schedule of iteration events. -/

inductive RollWatchEvent where
  | quit
  | listErr
  | listed (entries : List String)
deriving DecidableEq, Repr

inductive RollEmission where
  | out (us : List RollUpdate)
  | parseFailure (raw : String)
  | listFailure
deriving DecidableEq, Repr

/-- What one loop iteration emits, in order: per-entry unmarshal errors
as the entries are walked, then the single output batch holding every
entry that unmarshalled; a list error emits only on the error channel. -/
def tickEmissions : RollWatchEvent → List RollEmission
  | RollWatchEvent.quit => []
  | RollWatchEvent.listErr => [RollEmission.listFailure]
  | RollWatchEvent.listed es =>
    ((es.filter fun e => (parseUpdate e).isNone).map RollEmission.parseFailure) ++
      [RollEmission.out (es.filterMap parseUpdate)]

/-- The whole run of the watch loop over a schedule of events: it stops at
the first quit and otherwise emits each iteration in order. -/
def watchRun : List RollWatchEvent → List RollEmission
  | [] => []
  | RollWatchEvent.quit :: _ => []
  | RollWatchEvent.listErr :: rest => tickEmissions RollWatchEvent.listErr ++ watchRun rest
  | RollWatchEvent.listed es :: rest => tickEmissions (RollWatchEvent.listed es) ++ watchRun rest

/-! ## httpApplicator.GetMatches (pkg/labels)

The HTTP exchange is abstracted by its outcome: a transport error from
client.Get, a JSON decode error on the body, or the decoded list of
matching id strings. -/

structure Labeled where
  id : String
  labelType : String
  labels : List (String × String)
deriving DecidableEq, Repr

inductive MatchesResponse where
  | httpError (msg : String)
  | decodeError (msg : String)
  | body (ms : List String)
deriving DecidableEq, Repr

/-- Shallow embedding of httpApplicator.GetMatches: on a transport or
decode error return the empty slice and the error; otherwise one Labeled
per decoded string, in order, with that string as id, the requested label
type, and an empty label set. -/
def getMatches (resp : MatchesResponse) (labelType : String) :
    List Labeled × Option String :=
  match resp with
  | MatchesResponse.httpError msg => ([], some msg)
  | MatchesResponse.decodeError msg => ([], some msg)
  | MatchesResponse.body ms =>
    (ms.map fun s => { id := s, labelType := labelType, labels := [] }, none)

/-! ## Theorems -/

/-! ## Theorems for claims C1, C2, C3 and C5 -/

/-- C1 (counterexample): during WriteCurrentManifest on a pod whose
current_manifest.yaml holds the serialized manifest (id web, config v1),
writing the manifest (id web, config v2), the second observable state of
the file is present but empty, and the empty file does not parse — while
the old and new contents do. The writer truncates in place instead of
staging the new file to temp and renaming it. -/
theorem c1_partialWriteObservable :
    (writeCurrentManifest wcmNoFail (some (serializeManifest { id := "web", config := "v1" }))
        { id := "web", config := "v2" }).trace.get? 1 = some (some "") ∧
    parseManifest "" = none ∧
    parseManifest (serializeManifest { id := "web", config := "v1" }) =
      some { id := "web", config := "v1" } ∧
    parseManifest (serializeManifest { id := "web", config := "v2" }) =
      some { id := "web", config := "v2" } := by
  decide

/-- C1 (amended): current_manifest.yaml is absent or a complete serialized
manifest BEFORE WriteCurrentManifest and again AT RETURN — the new
manifest on success and on the no-revert uid and chown failures, the old
one on open failure and on a write failure whose restore rename succeeded
— EXCEPT when a write failure cannot be restored (the revert rename fails,
or no old manifest existed to stage): then the truncated, unparseable file
remains at rest, the degraded state the spec calls FilesystemFatal. During
the write a truncated partial file is always observable, because the
writer truncates the file in place and stages only the old content to
temp. -/
theorem c1_fileCompleteAtRest (env : WcmEnv) (old : Option String) (newM : Manifest)
    (hold : old = none ∨ ∃ m, old = some (serializeManifest m)) :
    ((env.writeFails = true → old ≠ none ∧ env.revertFails = false) →
      ((writeCurrentManifest env old newM).final = none ∨
        ∃ m, (writeCurrentManifest env old newM).final = some (serializeManifest m))) ∧
    (env.tempDirFails = false → env.uriCopyFails = false → env.openFails = false →
      env.writeFails = true → env.revertFails = true →
      (writeCurrentManifest env old newM).final = some "" ∧ parseManifest "" = none) := by
  constructor
  · intro hw
    unfold writeCurrentManifest
    rcases hold with h | ⟨m, h⟩ <;> subst h
    · by_cases ht : env.tempDirFails <;> by_cases ho : env.openFails <;>
        by_cases hwf : env.writeFails <;> by_cases hu : env.userIDsFails <;>
        by_cases hc : env.chownFails <;> by_cases hr : env.revertFails <;>
        simp_all
    · by_cases ht : env.tempDirFails <;> by_cases hcp : env.uriCopyFails <;>
        by_cases ho : env.openFails <;> by_cases hwf : env.writeFails <;>
        by_cases hu : env.userIDsFails <;> by_cases hc : env.chownFails <;>
        by_cases hr : env.revertFails <;>
        simp_all
  · intro h1 h2 h3 h4 h5
    refine ⟨?_, by decide⟩
    rcases hold with h | ⟨m, h⟩ <;> subst h <;>
      simp [writeCurrentManifest, h1, h2, h3, h4, h5]

/-- C1 (witness for the amended theorem). -/
theorem c1_fileCompleteAtRest_witness :
    (writeCurrentManifest { wcmNoFail with chownFails := true }
        (some (serializeManifest { id := "web", config := "v1" }))
        { id := "web", config := "v2" }).final = none ∨
      ∃ m, (writeCurrentManifest { wcmNoFail with chownFails := true }
        (some (serializeManifest { id := "web", config := "v1" }))
        { id := "web", config := "v2" }).final = some (serializeManifest m) :=
  (c1_fileCompleteAtRest { wcmNoFail with chownFails := true }
    (some (serializeManifest { id := "web", config := "v1" }))
    { id := "web", config := "v2" }
    (Or.inr ⟨{ id := "web", config := "v1" }, rfl⟩)).1
    (by decide)

/-- C2 (counterexample): WriteCurrentManifest with a chown failure returns
an error but leaves the NEW manifest in place — the previous
current_manifest.yaml contents are not restored, contradicting the claim
that any failure restores them. -/
theorem c2_chownFailureDoesNotRevert :
    (writeCurrentManifest { wcmNoFail with chownFails := true }
        (some (serializeManifest { id := "web", config := "v1" }))
        { id := "web", config := "v2" }).errored = true ∧
    (writeCurrentManifest { wcmNoFail with chownFails := true }
        (some (serializeManifest { id := "web", config := "v1" }))
        { id := "web", config := "v2" }).final =
      some (serializeManifest { id := "web", config := "v2" }) ∧
    serializeManifest { id := "web", config := "v2" } ≠
      serializeManifest { id := "web", config := "v1" } := by
  decide

/-- C2 (amended): when staging succeeded, an OPEN or WRITE failure makes
WriteCurrentManifest OVERWRITE its error with the result of the revert:
when the revert rename succeeds the previous contents are back in place
but a NIL error is returned (the original failure is swallowed — restored,
but not before an error is returned, since none is); when the rename
fails, the error is returned with the old file still in place after an
open failure but with the truncated partial file left behind after a
write failure (no restore). A uid or gid resolution failure or a CHOWN
failure returns the error with the NEW manifest left in place (no revert
attempted). -/
theorem c2_revertResultReplacesError (env : WcmEnv) (o : String) (newM : Manifest)
    (ht : env.tempDirFails = false) (hcp : env.uriCopyFails = false) :
    (env.openFails = true →
      (writeCurrentManifest env (some o) newM).final = some o ∧
      (writeCurrentManifest env (some o) newM).errored = env.revertFails) ∧
    (env.openFails = false → env.writeFails = true → env.revertFails = false →
      (writeCurrentManifest env (some o) newM).final = some o ∧
      (writeCurrentManifest env (some o) newM).errored = false) ∧
    (env.openFails = false → env.writeFails = true → env.revertFails = true →
      (writeCurrentManifest env (some o) newM).final = some "" ∧
      (writeCurrentManifest env (some o) newM).errored = true) ∧
    (env.openFails = false → env.writeFails = false →
      (env.userIDsFails = true ∨ env.chownFails = true) →
      (writeCurrentManifest env (some o) newM).final = some (serializeManifest newM) ∧
      (writeCurrentManifest env (some o) newM).errored = true) := by
  unfold writeCurrentManifest
  refine ⟨fun ho => ?_, fun ho hw hr => ?_, fun ho hw hr => ?_, fun ho hw hm => ?_⟩
  · simp [ht, hcp, ho]
  · simp [ht, hcp, ho, hw, hr]
  · simp [ht, hcp, ho, hw, hr]
  · rcases hm with hu | hc
    · simp [ht, hcp, ho, hw, hu]
    · by_cases hu2 : env.userIDsFails <;> simp [ht, hcp, ho, hw, hc, hu2]

/-- C2 (witness for the amended theorem): a write failure whose revert
rename succeeds restores the old contents and returns NO error. -/
theorem c2_revertResultReplacesError_witness :
    (writeCurrentManifest { wcmNoFail with writeFails := true }
        (some (serializeManifest { id := "web", config := "v1" }))
        { id := "web", config := "v2" }).final =
      some (serializeManifest { id := "web", config := "v1" }) ∧
    (writeCurrentManifest { wcmNoFail with writeFails := true }
        (some (serializeManifest { id := "web", config := "v1" }))
        { id := "web", config := "v2" }).errored = false :=
  (c2_revertResultReplacesError { wcmNoFail with writeFails := true }
    (serializeManifest { id := "web", config := "v1" })
    { id := "web", config := "v2" } rfl rfl).2.1 rfl rfl rfl

/-- C3 (code evaluated at the failing input): a pod whose current manifest
is (id web, config v1) receives the new manifest (id web, config v2); the
fingerprints differ, installAndLaunchPod Halts the old manifest and
reports success — but Launch is never invoked on the new manifest, so the
pod is left with nothing running. -/
theorem c3_haltButNoLaunch :
    (installAndLaunchPod
      { installFails := false, current := CurrentResult.manifest { id := "web", config := "v1" },
        launchOk := true, launchErr := false, haltOk := true, haltErr := false }
      { id := "web", config := "v2" }).fst = true ∧
    PodAction.halt ∈ (installAndLaunchPod
      { installFails := false, current := CurrentResult.manifest { id := "web", config := "v1" },
        launchOk := true, launchErr := false, haltOk := true, haltErr := false }
      { id := "web", config := "v2" }).snd ∧
    PodAction.launch ∉ (installAndLaunchPod
      { installFails := false, current := CurrentResult.manifest { id := "web", config := "v1" },
        launchOk := true, launchErr := false, haltOk := true, haltErr := false }
      { id := "web", config := "v2" }).snd ∧
    manifestSHA { id := "web", config := "v1" } ≠ manifestSHA { id := "web", config := "v2" } := by
  decide

/-- C5 (code evaluated at the failing input): after a successful
application of the manifest (id web, config v1), the worker runs the
hooksDir/after scripts with the ZERO PodManifest instead of the manifest
just applied (it resets manifestToLaunch before calling RunHooks); the
hook failure itself indeed does not fail the worker. -/
theorem c5_afterHookGetsZeroManifest :
    (handlePodsAfterSuccess { id := "web", config := "v1" } true).fst = emptyPodManifest ∧
    (handlePodsAfterSuccess { id := "web", config := "v1" } true).fst ≠
      { id := "web", config := "v1" } ∧
    (handlePodsAfterSuccess { id := "web", config := "v1" } true).snd = false := by
  decide

/-! ## Lemmas about getLaunchable, Launchables, Install and Launch -/

/-- A successful getLaunchable means the type tag was hoist or
opencontainer. -/
theorem getLaunchable_ok_type (ocFlag : Bool) (podId : String) (st : LaunchableStanza)
    (runAs : String) (l : Launchable) (h : getLaunchable ocFlag podId st runAs = Except.ok l) :
    st.launchableType = "hoist" ∨ st.launchableType = "opencontainer" := by
  unfold getLaunchable at h
  by_cases h1 : st.launchableType = "hoist"
  · exact Or.inl h1
  · by_cases h2 : ocFlag = true ∧ st.launchableType = "opencontainer"
    · exact Or.inr h2.2
    · simp [h1, h2] at h

/-- The only error getLaunchable produces is the unsupported-type error,
naming the type tag of the stanza. -/
theorem getLaunchable_error_shape (ocFlag : Bool) (podId : String) (st : LaunchableStanza)
    (runAs : String) (e : PodError) (h : getLaunchable ocFlag podId st runAs = Except.error e) :
    e = PodError.unsupportedLaunchableType st.launchableType ∧
      st.launchableType ≠ "hoist" := by
  unfold getLaunchable at h
  by_cases h1 : st.launchableType = "hoist"
  · simp [h1] at h
  · by_cases h2 : ocFlag = true ∧ st.launchableType = "opencontainer"
    · simp [h1, h2] at h
    · simp [h1, h2] at h
      exact ⟨h.symm, h1⟩

/-- A type tag that is neither hoist nor opencontainer always produces the
unsupported-type error. -/
theorem getLaunchable_unsupported (ocFlag : Bool) (podId : String) (st : LaunchableStanza)
    (runAs : String) (h1 : st.launchableType ≠ "hoist")
    (h2 : st.launchableType ≠ "opencontainer") :
    getLaunchable ocFlag podId st runAs =
      Except.error (PodError.unsupportedLaunchableType st.launchableType) := by
  unfold getLaunchable
  simp [h1, h2]

/-- When Launchables succeeds, every stanza had a supported type tag. -/
theorem podLaunchables_ok_type (ocFlag : Bool) (podId runAs : String) :
    ∀ (stanzas : List LaunchableStanza) (ls : List Launchable),
      podLaunchables ocFlag podId runAs stanzas = Except.ok ls →
      ∀ st ∈ stanzas, st.launchableType = "hoist" ∨ st.launchableType = "opencontainer"
  | [], _, _, st, hmem => by cases hmem
  | st0 :: rest, ls, h, st, hmem => by
    unfold podLaunchables at h
    cases hg : getLaunchable ocFlag podId st0 runAs with
    | error e => rw [hg] at h; cases h
    | ok l =>
      rw [hg] at h
      cases hr : podLaunchables ocFlag podId runAs rest with
      | error e => rw [hr] at h; cases h
      | ok ls2 =>
        cases hmem with
        | head => exact getLaunchable_ok_type ocFlag podId st0 runAs l hg
        | tail _ hmem2 => exact podLaunchables_ok_type ocFlag podId runAs rest ls2 hr st hmem2

/-- A stanza with an unsupported type anywhere in the list makes
Launchables fail, and the failure is an unsupported-type error. -/
theorem podLaunchables_bad (ocFlag : Bool) (podId runAs : String) :
    ∀ (stanzas : List LaunchableStanza) (st : LaunchableStanza), st ∈ stanzas →
      st.launchableType ≠ "hoist" → st.launchableType ≠ "opencontainer" →
      ∃ t, podLaunchables ocFlag podId runAs stanzas =
        Except.error (PodError.unsupportedLaunchableType t)
  | [], _, hmem, _, _ => by cases hmem
  | st0 :: rest, st, hmem, h1, h2 => by
    unfold podLaunchables
    cases hg : getLaunchable ocFlag podId st0 runAs with
    | error e =>
      obtain ⟨he, _⟩ := getLaunchable_error_shape ocFlag podId st0 runAs e hg
      exact ⟨st0.launchableType, by rw [he]⟩
    | ok l =>
      cases hmem with
      | head =>
        rw [getLaunchable_unsupported ocFlag podId st0 runAs h1 h2] at hg
        cases hg
      | tail _ hmem2 =>
        obtain ⟨t, ht⟩ := podLaunchables_bad ocFlag podId runAs rest st hmem2 h1 h2
        exact ⟨t, by rw [ht]⟩

/-- C9: a launchable stanza constructs successfully only when its type tag
is hoist or opencontainer; any other type tag yields the
unsupported-launchable-type error from getLaunchable, and Install of a
manifest containing such a stanza fails with an unsupported-type error
(once uid resolution and pod-home creation have not failed first), while a
successful Install proves all stanzas carried supported types. -/
theorem c9_unsupportedTypeRejected (ocFlag : Bool) (podId runAs : String)
    (st : LaunchableStanza) (env : InstallEnv) (stanzas : List LaunchableStanza) :
    (∀ l, getLaunchable ocFlag podId st runAs = Except.ok l →
      st.launchableType = "hoist" ∨ st.launchableType = "opencontainer") ∧
    (st.launchableType ≠ "hoist" → st.launchableType ≠ "opencontainer" →
      getLaunchable ocFlag podId st runAs =
        Except.error (PodError.unsupportedLaunchableType st.launchableType)) ∧
    (podInstall env ocFlag podId runAs stanzas = none →
      ∀ st2 ∈ stanzas, st2.launchableType = "hoist" ∨ st2.launchableType = "opencontainer") ∧
    (env.userIDsFail = false → env.mkdirFail = false → st ∈ stanzas →
      st.launchableType ≠ "hoist" → st.launchableType ≠ "opencontainer" →
      ∃ t, podInstall env ocFlag podId runAs stanzas =
        some (PodError.unsupportedLaunchableType t)) := by
  refine ⟨fun l h => getLaunchable_ok_type ocFlag podId st runAs l h,
    fun h1 h2 => getLaunchable_unsupported ocFlag podId st runAs h1 h2,
    fun h st2 hmem => ?_, fun hu hm hmem h1 h2 => ?_⟩
  · unfold podInstall at h
    by_cases hu : env.userIDsFail
    · simp [hu] at h
    · by_cases hk : env.mkdirFail
      · simp [hu, hk] at h
      · cases hls : podLaunchables ocFlag podId runAs stanzas with
        | error e => simp [hu, hk, hls] at h
        | ok ls => exact podLaunchables_ok_type ocFlag podId runAs stanzas ls hls st2 hmem
  · obtain ⟨t, ht⟩ := podLaunchables_bad ocFlag podId runAs stanzas st hmem h1 h2
    exact ⟨t, by unfold podInstall; simp [hu, hm, ht]⟩

/-- C9 (witness): with the opencontainer flag off, a stanza of type
bogus makes getLaunchable fail with the unsupported-type error and makes
Install of a manifest holding only that stanza fail the same way. -/
theorem c9_unsupportedTypeRejected_witness :
    ∃ t, podInstall
        { userIDsFail := false, mkdirFail := false,
          launchableInstallFail := fun _ => false, setupConfigFail := false }
        false "web" "webuser"
        [{ launchableId := "app", launchableType := "bogus", location := "http://x/a.tgz",
           restartTimeout := "" }] =
      some (PodError.unsupportedLaunchableType t) :=
  (c9_unsupportedTypeRejected false "web" "webuser"
      { launchableId := "app", launchableType := "bogus", location := "http://x/a.tgz",
        restartTimeout := "" }
      { userIDsFail := false, mkdirFail := false,
        launchableInstallFail := fun _ => false, setupConfigFail := false }
      [{ launchableId := "app", launchableType := "bogus", location := "http://x/a.tgz",
         restartTimeout := "" }]).2.2.2
    rfl rfl (List.mem_singleton.mpr rfl) (by decide) (by decide)

/-- When no MakeCurrent fails, the first Launch loop completes and records
per-launchable PostActivate success. -/
theorem launchFlip_ok (rt : LaunchRuntime) :
    ∀ is : List Nat, (∀ i ∈ is, rt.makeCurrentFails i = false) →
      launchFlip rt is = Except.ok (is.map fun i => !rt.postActivateFails i)
  | [], _ => rfl
  | i :: rest, h => by
    unfold launchFlip
    rw [h i (List.mem_cons_self i rest)]
    rw [launchFlip_ok rt rest fun j hj => h j (List.mem_cons_of_mem i hj)]
    rfl

/-- The first Launch loop fails only when some MakeCurrent failed. -/
theorem launchFlip_error (rt : LaunchRuntime) :
    ∀ (is : List Nat) (e : PodError), launchFlip rt is = Except.error e →
      ∃ i ∈ is, rt.makeCurrentFails i = true
  | [], e, h => by cases h
  | i :: rest, e, h => by
    unfold launchFlip at h
    by_cases hm : rt.makeCurrentFails i
    · exact ⟨i, List.mem_cons_self i rest, hm⟩
    · rw [Bool.not_eq_true] at hm
      rw [hm] at h
      simp only [Bool.false_eq_true, if_false] at h
      cases hr : launchFlip rt rest with
      | error e2 =>
        obtain ⟨j, hj, hjm⟩ := launchFlip_error rt rest e2 hr
        exact ⟨j, List.mem_cons_of_mem i hj, hjm⟩
      | ok bs => rw [hr] at h; cases h

/-- Indexing the PostActivate success list built over List.range. -/
theorem getD_map_range (n i : Nat) (f : Nat → Bool) (h : i < n) :
    ((List.range n).map f).getD i false = f i := by
  rw [List.getD_eq_getElem?_getD, List.getElem?_map, List.getElem?_range h]
  rfl

/-- One iteration of the second Launch loop is a conjunction. -/
theorem launchStep_eq (rt : LaunchRuntime) (s : List Bool) (acc : Bool) (i : Nat) :
    launchStep rt s acc i = (acc && !svcStartFailed rt s i) := by
  unfold launchStep svcStartFailed
  cases h : s.getD i false <;> cases h2 : rt.svcLaunch i <;> simp [h, h2]

/-- Folding a conjunction step computes List.all. -/
theorem foldl_and_all (g : Nat → Bool) :
    ∀ (is : List Nat) (acc : Bool),
      List.foldl (fun a i => a && !g i) acc is = (acc && is.all fun i => !g i)
  | [], acc => by simp
  | i :: rest, acc => by
    rw [List.foldl_cons, foldl_and_all g rest (acc && !g i)]
    simp [Bool.and_assoc]

/-- The second Launch loop leaves success true exactly when no launchable
with a successful PostActivate hit a non-enable launch error. -/
theorem launchFold_eq (rt : LaunchRuntime) (s : List Bool) (is : List Nat) :
    List.foldl (launchStep rt s) true is = is.all fun i => !svcStartFailed rt s i := by
  have hf : launchStep rt s = fun a i => a && !svcStartFailed rt s i :=
    funext fun a => funext fun i => launchStep_eq rt s a i
  rw [hf, foldl_and_all (svcStartFailed rt s) is true, Bool.true_and]

/-- C4: Pod.Launch returns a non-nil error only for a catastrophic failure
(constructing the launchables, writing the current manifest, or a
MakeCurrent symlink flip); when none of those failed, a non-enable launch
error on any launchable whose PostActivate succeeded yields success false
with a nil error, and runs in which every launch error is an EnableError
(a warning) yield success true with a nil error. -/
theorem c4_launchErrorPolicy :
    (∀ (ocFlag : Bool) (podId runAs : String) (stanzas : List LaunchableStanza)
        (wcmEnv : WcmEnv) (old : Option String) (m : Manifest) (rt : LaunchRuntime),
      (podLaunch ocFlag podId runAs stanzas wcmEnv old m rt).snd ≠ none →
        (∃ e, podLaunchables ocFlag podId runAs stanzas = Except.error e) ∨
        (writeCurrentManifest wcmEnv old m).errored = true ∨
        (∃ i, rt.makeCurrentFails i = true)) ∧
    (∀ (ocFlag : Bool) (podId runAs : String) (stanzas : List LaunchableStanza)
        (wcmEnv : WcmEnv) (old : Option String) (m : Manifest) (rt : LaunchRuntime)
        (ls : List Launchable) (j : Nat),
      podLaunchables ocFlag podId runAs stanzas = Except.ok ls →
      (writeCurrentManifest wcmEnv old m).errored = false →
      (∀ i, i < ls.length → rt.makeCurrentFails i = false) →
      j < ls.length → rt.postActivateFails j = false →
      rt.svcLaunch j = LaunchCallResult.startErr →
      podLaunch ocFlag podId runAs stanzas wcmEnv old m rt = (false, none)) ∧
    (∀ (ocFlag : Bool) (podId runAs : String) (stanzas : List LaunchableStanza)
        (wcmEnv : WcmEnv) (old : Option String) (m : Manifest) (rt : LaunchRuntime)
        (ls : List Launchable),
      podLaunchables ocFlag podId runAs stanzas = Except.ok ls →
      (writeCurrentManifest wcmEnv old m).errored = false →
      (∀ i, i < ls.length → rt.makeCurrentFails i = false) →
      (∀ i, rt.svcLaunch i ≠ LaunchCallResult.startErr) →
      podLaunch ocFlag podId runAs stanzas wcmEnv old m rt = (true, none)) := by
  refine ⟨?_, ?_, ?_⟩
  · intro ocFlag podId runAs stanzas wcmEnv old m rt h
    unfold podLaunch at h
    cases hls : podLaunchables ocFlag podId runAs stanzas with
    | error e => exact Or.inl ⟨e, rfl⟩
    | ok ls =>
      rw [hls] at h
      by_cases hw : (writeCurrentManifest wcmEnv old m).errored
      · exact Or.inr (Or.inl hw)
      · simp only [hw, if_false] at h
        cases hf : launchFlip rt (List.range ls.length) with
        | error e =>
          obtain ⟨i, _, hi⟩ := launchFlip_error rt (List.range ls.length) e hf
          exact Or.inr (Or.inr ⟨i, hi⟩)
        | ok successes => rw [hf] at h; simp at h
  · intro ocFlag podId runAs stanzas wcmEnv old m rt ls j hls hw hmc hj hpa hsvc
    unfold podLaunch
    rw [hls]
    simp only [hw, if_false]
    rw [launchFlip_ok rt (List.range ls.length)
      (fun i hi => hmc i (List.mem_range.mp hi))]
    simp only [launchFold_eq]
    have hbad : svcStartFailed rt ((List.range ls.length).map fun i => !rt.postActivateFails i)
        j = true := by
      unfold svcStartFailed
      rw [getD_map_range ls.length j _ hj, hpa]
      simp [hsvc]
    have : ((List.range ls.length).all fun i =>
        !svcStartFailed rt ((List.range ls.length).map fun k => !rt.postActivateFails k) i)
        = false := by
      apply List.all_eq_false.mpr
      exact ⟨j, List.mem_range.mpr hj, by rw [hbad]; decide⟩
    rw [this]
    simp
  · intro ocFlag podId runAs stanzas wcmEnv old m rt ls hls hw hmc hsvc
    unfold podLaunch
    rw [hls]
    simp only [hw, if_false]
    rw [launchFlip_ok rt (List.range ls.length)
      (fun i hi => hmc i (List.mem_range.mp hi))]
    simp only [launchFold_eq]
    have : ((List.range ls.length).all fun i =>
        !svcStartFailed rt ((List.range ls.length).map fun k => !rt.postActivateFails k) i)
        = true := by
      apply List.all_eq_true.mpr
      intro i _
      unfold svcStartFailed
      have : decide (rt.svcLaunch i = LaunchCallResult.startErr) = false := by
        simp [hsvc i]
      rw [this]
      simp
    rw [this]
    simp

/-- C4 (witness): a single hoist launchable whose service start fails with
a non-enable error makes Launch return success false with no error. -/
theorem c4_launchErrorPolicy_witness :
    podLaunch false "web" "webuser"
      [{ launchableId := "app", launchableType := "hoist", location := "http://x/a.tgz",
         restartTimeout := "" }]
      wcmNoFail none { id := "web", config := "v1" }
      { makeCurrentFails := fun _ => false, postActivateFails := fun _ => false,
        buildRunitFails := false, svcLaunch := fun _ => LaunchCallResult.startErr } =
      (false, none) :=
  c4_launchErrorPolicy.2.1 false "web" "webuser"
    [{ launchableId := "app", launchableType := "hoist", location := "http://x/a.tgz",
       restartTimeout := "" }]
    wcmNoFail none { id := "web", config := "v1" }
    { makeCurrentFails := fun _ => false, postActivateFails := fun _ => false,
      buildRunitFails := false, svcLaunch := fun _ => LaunchCallResult.startErr }
    [Launchable.hoist "web__app" "http://x/a.tgz" "webuser"] 0
    rfl (by decide) (fun i _ => rfl) (by decide) rfl rfl

/-- The classifier modelled from the spec passes every assertion of the
in-tree test TestResultFromCheck: 200 is Passing with the body captured,
282 is Passing, 1000000 is Critical, a missing response is Critical, and a
transport error is Critical. -/
theorem resultFromCheck_matchesTestResultFromCheck :
    resultFromCheck (some { statusCode := 200, body := "output" }) false =
      (HealthState.passing, "output") ∧
    (resultFromCheck (some { statusCode := 282, body := "output" }) false).fst =
      HealthState.passing ∧
    (resultFromCheck (some { statusCode := 1000000, body := "output" }) false).fst =
      HealthState.critical ∧
    (resultFromCheck none false).fst = HealthState.critical ∧
    (resultFromCheck none true).fst = HealthState.critical := by
  decide

/-- C6: every health probe result is classified from the status endpoint
response: a 2xx status yields Passing, 429 yields Warning, any other 4xx
or 5xx status yields Critical, and a transport error (or missing
response) yields Critical. -/
theorem c6_healthClassification (r : StatusResponse) (e : Bool) :
    (200 ≤ r.statusCode → r.statusCode ≤ 299 →
      (resultFromCheck (some r) false).fst = HealthState.passing) ∧
    (r.statusCode = 429 → (resultFromCheck (some r) false).fst = HealthState.warning) ∧
    (400 ≤ r.statusCode → r.statusCode ≤ 599 → r.statusCode ≠ 429 →
      (resultFromCheck (some r) false).fst = HealthState.critical) ∧
    (resultFromCheck (some r) true).fst = HealthState.critical ∧
    (resultFromCheck none e).fst = HealthState.critical := by
  refine ⟨fun h1 h2 => ?_, fun h429 => ?_, fun h1 h2 hne => ?_, ?_, ?_⟩
  · simp [resultFromCheck, h1, h2]
  · have hlt : ¬(200 ≤ r.statusCode ∧ r.statusCode ≤ 299) := by omega
    simp [resultFromCheck, hlt, h429]
  · have hlt : ¬(200 ≤ r.statusCode ∧ r.statusCode ≤ 299) := by omega
    simp [resultFromCheck, hlt, hne]
  · simp [resultFromCheck]
  · cases e <;> simp [resultFromCheck]

/-- C6 (witness): a 429 response is classified Warning. -/
theorem c6_healthClassification_witness :
    (resultFromCheck (some { statusCode := 429, body := "busy" }) false).fst =
      HealthState.warning :=
  (c6_healthClassification { statusCode := 429, body := "busy" } false).2.1 rfl

/-- A successful find? result is a member of the list. -/
theorem kvLookup_mem (kv : List KVEntry) (k : String) (e : KVEntry)
    (h : kvLookup kv k = some e) : e ∈ kv :=
  List.mem_of_find?_eq_some h

/-- C7: Put creates the record exactly when no update keyed by the same
new RC id exists — it CASes with expected ModifyIndex 0, so on a fresh key
the marshalled update is stored under rolls/(new RC id), and on an
existing key (whose revision index is positive) it returns the
already-exists error and leaves the store untouched. -/
theorem c7_putCreateOnly (kv : List KVEntry) (u : RollUpdate) (hwf : kvWF kv) :
    (kvLookup kv (rollPath u.newRC) = none →
      rollStorePut kv u =
        (none, { key := rollPath u.newRC, value := marshalUpdate u,
                 modifyIndex := kvMaxIndex kv + 1 } :: kv)) ∧
    (∀ e, kvLookup kv (rollPath u.newRC) = some e →
      rollStorePut kv u =
        (some ("update with new RC ID " ++ u.newRC ++ " already exists"), kv)) := by
  constructor
  · intro habs
    simp [rollStorePut, kvCAS, habs]
  · intro e hsome
    have hpos : 1 ≤ e.modifyIndex := hwf e (kvLookup_mem kv (rollPath u.newRC) e hsome)
    have hne : (0 : Nat) ≠ e.modifyIndex := by omega
    simp [rollStorePut, kvCAS, hsome, hne]

/-- C7 (witness): on a store already holding rolls/rc-new at revision 7,
Put of an update keyed by rc-new fails with the already-exists error and
leaves the store unchanged; on the empty store the same Put creates the
record. -/
theorem c7_putCreateOnly_witness :
    (rollStorePut [{ key := "rolls/rc-new", value := "old-record", modifyIndex := 7 }]
        { newRC := "rc-new", oldRC := "rc-old", desiredReplicas := 3, minimumReplicas := 2 } =
      (some "update with new RC ID rc-new already exists",
        [{ key := "rolls/rc-new", value := "old-record", modifyIndex := 7 }])) ∧
    (rollStorePut []
        { newRC := "rc-new", oldRC := "rc-old", desiredReplicas := 3, minimumReplicas := 2 } =
      (none,
        [{ key := "rolls/rc-new",
           value := marshalUpdate { newRC := "rc-new", oldRC := "rc-old", desiredReplicas := 3, minimumReplicas := 2 },
           modifyIndex := 1 }])) := by
  constructor
  · exact (c7_putCreateOnly
      [{ key := "rolls/rc-new", value := "old-record", modifyIndex := 7 }]
      { newRC := "rc-new", oldRC := "rc-old", desiredReplicas := 3, minimumReplicas := 2 }
      (by intro e he; simp at he; rw [he]; decide)).2
      { key := "rolls/rc-new", value := "old-record", modifyIndex := 7 } (by decide)
  · exact (c7_putCreateOnly []
      { newRC := "rc-new", oldRC := "rc-old", desiredReplicas := 3, minimumReplicas := 2 }
      (by intro e he; cases he)).1 (by decide)

/-- C8: however many list errors and unparseable batches precede it, a
listing of the rolls tree before the quit signal is still processed, its
unparseable entries are each reported as errors and skipped, and the one
output emission for it is the COMPLETE current set of parseable Update
records of that full listing (never a delta); nothing after the quit is
processed. -/
theorem c8_watchEmitsFullSets (pre post : List RollWatchEvent) (es : List String)
    (hq : RollWatchEvent.quit ∉ pre) :
    watchRun (pre ++ RollWatchEvent.listed es :: RollWatchEvent.quit :: post) =
      (pre.map tickEmissions).flatten ++
        ((es.filter fun e => (parseUpdate e).isNone).map RollEmission.parseFailure) ++
        [RollEmission.out (es.filterMap parseUpdate)] := by
  induction pre with
  | nil =>
    simp [watchRun, tickEmissions]
  | cons ev rest ih =>
    have hne : ev ≠ RollWatchEvent.quit := fun h => hq (h ▸ List.mem_cons_self ev rest)
    have hrest : RollWatchEvent.quit ∉ rest := fun h => hq (List.mem_cons_of_mem ev h)
    cases ev with
    | quit => exact absurd rfl hne
    | listErr =>
      simp only [List.cons_append, watchRun, List.append_eq]
      rw [ih hrest]
      simp [List.append_assoc]
    | listed es2 =>
      simp only [List.cons_append, watchRun, List.append_eq]
      rw [ih hrest]
      simp [List.append_assoc]

/-- C8 (witness): after a list error and a batch holding only garbage, a
listing with one well-formed update and one garbage entry still emits the
full parseable set, with the garbage reported; the quit then ends the run
before a later listing. -/
theorem c8_watchEmitsFullSets_witness :
    watchRun ([RollWatchEvent.listErr, RollWatchEvent.listed ["garbage"]] ++
        RollWatchEvent.listed [marshalUpdate { newRC := "rc-new", oldRC := "rc-old", desiredReplicas := 3, minimumReplicas := 2 }, "bad"] ::
        RollWatchEvent.quit :: [RollWatchEvent.listed ["ignored"]]) =
      [RollEmission.listFailure,
       RollEmission.parseFailure "garbage", RollEmission.out [],
       RollEmission.parseFailure "bad",
       RollEmission.out [{ newRC := "rc-new", oldRC := "rc-old", desiredReplicas := 3, minimumReplicas := 2 }]] := by
  rw [c8_watchEmitsFullSets [RollWatchEvent.listErr, RollWatchEvent.listed ["garbage"]]
    [RollWatchEvent.listed ["ignored"]]
    [marshalUpdate { newRC := "rc-new", oldRC := "rc-old", desiredReplicas := 3, minimumReplicas := 2 }, "bad"]
    (by decide)]
  decide

/-- C10: a successful GetMatches returns no error and exactly one Labeled
per string of the response, in the same order, whose id is that string,
whose label type is the requested one and whose label set is empty; an
HTTP or decode error returns the empty slice with the error. -/
theorem c10_getMatchesShape (lt : String) (ms : List String) (msg : String) :
    ((getMatches (MatchesResponse.body ms) lt).snd = none ∧
     (getMatches (MatchesResponse.body ms) lt).fst.length = ms.length ∧
     ∀ i : Nat, (getMatches (MatchesResponse.body ms) lt).fst.get? i =
       (ms.get? i).map fun s => { id := s, labelType := lt, labels := [] }) ∧
    getMatches (MatchesResponse.httpError msg) lt = ([], some msg) ∧
    getMatches (MatchesResponse.decodeError msg) lt = ([], some msg) := by
  refine ⟨⟨rfl, ?_, fun i => ?_⟩, rfl, rfl⟩
  · simp [getMatches]
  · simp [getMatches]

/-- C10 (witness): a response of two ids yields two Labeled values in
order with empty label sets, and an HTTP error yields the empty slice
with the error. -/
theorem c10_getMatchesShape_witness :
    (getMatches (MatchesResponse.body ["node1", "node2"]) "pods").fst.get? 1 =
      some { id := "node2", labelType := "pods", labels := [] } ∧
    getMatches (MatchesResponse.httpError "connection refused") "pods" =
      ([], some "connection refused") := by
  constructor
  · rw [(c10_getMatchesShape "pods" ["node1", "node2"] "connection refused").1.2.2 1]
    decide
  · exact (c10_getMatchesShape "pods" ["node1", "node2"] "connection refused").2.1
